import Mathlib

/-!
Verification of the Legion Go S MCU configuration driver
(lenovo-legos-hid-config.c) and the Zotac fan-curve controller
(zotac-zone-platform.c), shallowly embedded in Lean.

Machine integers are modelled as Nat/Int; the C `int` return values are
Int, errno constants appear as their negative numeric values
(EINVAL = 22, EBUSY = 16, ENOMEM = 12, ENODEV = 19, ERANGE = 34).
-/

namespace Legos

/-- Modelled from the spec: the fixed packet size constant
GO_S_PACKET_SIZE comes from the header lenovo-legos-hid-core.h, which is
not part of the sources; the spec fixes the frame at 65 bytes, matching
the 1+1+63 byte command_report struct. -/
def GO_S_PACKET_SIZE : Nat := 65

/-- MCU_COMMAND enum values from the source. -/
def SEND_HEARTBEAT : Nat := 0
def GET_VERSION : Nat := 1
def GET_MCU_ID : Nat := 2
def GET_GAMEPAD_CFG : Nat := 3
def SET_GAMEPAD_CFG : Nat := 4
def GET_TP_PARAM : Nat := 5
def SET_TP_PARAM : Nat := 6
def GET_MOTOR_CFG : Nat := 7
def SET_MOTOR_CFG : Nat := 8
def GET_TRIGGER_CFG : Nat := 9
def SET_TRIGGER_CFG : Nat := 10
def GET_STICK_CFG : Nat := 11
def SET_STICK_CFG : Nat := 12
def GET_GYRO_CFG : Nat := 13
def SET_GYRO_CFG : Nat := 14
def GET_LIGHT_CFG : Nat := 15
def SET_LIGHT_CFG : Nat := 16
def GET_KEY_MAP : Nat := 17
def SET_KEY_MAP : Nat := 18
def GET_PL_TEST : Nat := 223
def SET_PL_TEST : Nat := 224

/-- GAMEPAD_CFG_INDEX enum values. -/
def CFG_GAMEPAD_MODE : Nat := 1
def CFG_AUTO_SLP_TIME : Nat := 4
def CFG_PASS_ENABLE : Nat := 5
def CFG_LIGHT_ENABLE : Nat := 6
def CFG_IMU_ENABLE : Nat := 7
def CFG_TPAD_ENABLE : Nat := 8
def CFG_OS_TYPE : Nat := 10
def CFG_POLL_RATE : Nat := 16
def CFG_DPAD_MODE : Nat := 17
def CFG_MS_WHEEL_STEP : Nat := 18

/-- TOUCHPAD_CFG_INDEX enum values. -/
def CFG_WINDOWS_MODE : Nat := 3
def CFG_LINUX_MODE : Nat := 4

/-- LIGHT_CFG_INDEX enum values. -/
def LIGHT_MODE_SEL : Nat := 1
def LIGHT_PROFILE_SEL : Nat := 2
def USR_LIGHT_PROFILE_1 : Nat := 3
def USR_LIGHT_PROFILE_3 : Nat := 5

/-- TEST_INDEX enum values used by the attribute surface. -/
def TEST_TP_MFR : Nat := 2
def TEST_IMU_MFR : Nat := 3
def TEST_TP_VER : Nat := 4

def GAMEPAD_MODE_TEXT : List String := ["xinput", "dinput"]
def FEATURE_ENABLE_STATUS_TEXT : List String := ["false", "true"]
def IMU_ENABLED_TEXT : List String := ["off", "on", "off-2sec"]
def OS_TYPE_TEXT : List String := ["windows", "linux"]
def POLL_RATE_TEXT : List String := ["125", "250", "500", "1000"]
def DPAD_MODE_TEXT : List String := ["8-way", "4-way"]
def TOUCHPAD_MODE_TEXT : List String := ["relative", "absolute"]
def RGB_MODE_TEXT : List String := ["dynamic", "custom"]
def RGB_EFFECT_TEXT : List String := ["monocolor", "breathe", "chroma", "rainbow"]
def TP_MANUFACTURER_TEXT : List String := ["none", "BetterLife", "SIPO"]
def IMU_MANUFACTURER_TEXT : List String := ["none", "Bosch", "ST"]

/-- The driver's global mutable state (struct legos_cfg drvdata), restricted
to the fields the configuration engine reads and writes. The multicolor LED
intensities and the led_cdev brightness live behind pointers in the C code;
they are inlined here as list/scalar fields. -/
structure Drvdata where
  last_cmd_ret : Int
  last_cmd_val : Nat
  mcu_id : List Nat
  mcu_ver : List Nat
  rgb_profile : Nat
  rgb_effect : Nat
  rgb_speed : Nat
  rgb_mode : Nat
  intensity : List Nat
  brightness : Nat
deriving Repr, DecidableEq

/-- Driver state right after probe: zero command state, all-zero MCU
identity, and the static initial LED intensities/brightness from
legos_rgb_subled_info and legos_cdev_rgb. -/
def init_drvdata : Drvdata :=
  Drvdata.mk 0 0 (List.replicate 12 0) (List.replicate 4 0) 0 0 0 0 [36, 34, 153] 80

/-- Result of legos_cfg_raw_event: the updated driver state, whether
complete(&drvdata.send_cmd_complete) was called, and the int return value. -/
structure RawEventResult where
  d : Drvdata
  completed : Bool
  ret : Int
deriving Repr, DecidableEq

/-- legos_cfg_raw_event from the source: validates the frame length, then
dispatches on the command byte, populating cached fields and setting
last_cmd_ret, and finally signals completion and returns -last_cmd_ret.
A frame whose size differs from GO_S_PACKET_SIZE returns -EINVAL at once,
before the switch and before complete() is reached. -/
def legos_cfg_raw_event (size : Nat) (data : List Nat) (d : Drvdata) : RawEventResult :=
  if size ≠ GO_S_PACKET_SIZE then RawEventResult.mk d false (-22)
  else
    let cmd := data.getD 0 0
    let sub := data.getD 1 0
    let db : Nat → Nat := fun i => data.getD (i + 2) 0
    let d1 :=
      if cmd = GET_VERSION then
        { d with mcu_ver := [db 2, db 1, db 0, sub], last_cmd_ret := 0 }
      else if cmd = GET_MCU_ID then
        { d with mcu_id := sub :: (List.range 11).map db, last_cmd_ret := 0 }
      else if cmd = GET_GAMEPAD_CFG ∨ cmd = GET_TP_PARAM then
        { d with last_cmd_val := db 0, last_cmd_ret := 0 }
      else if cmd = GET_PL_TEST then
        if sub = TEST_TP_MFR ∨ sub = TEST_IMU_MFR ∨ sub = TEST_TP_VER then
          { d with last_cmd_val := db 0, last_cmd_ret := 0 }
        else
          { d with last_cmd_ret := 22 }
      else if cmd = GET_LIGHT_CFG then
        if sub = LIGHT_MODE_SEL then
          { d with rgb_mode := db 0, last_cmd_ret := 0 }
        else if sub = LIGHT_PROFILE_SEL then
          { d with rgb_profile := db 0, last_cmd_ret := 0 }
        else if sub = 3 ∨ sub = 4 ∨ sub = 5 then
          { d with rgb_effect := db 0, intensity := [db 1, db 2, db 3],
                   brightness := db 4, rgb_speed := db 5, last_cmd_ret := 0 }
        else
          { d with last_cmd_ret := 22 }
      else if cmd = GET_GYRO_CFG ∨ cmd = GET_KEY_MAP ∨ cmd = GET_MOTOR_CFG ∨
              cmd = GET_STICK_CFG ∨ cmd = GET_TRIGGER_CFG then
        { d with last_cmd_ret := 22 }
      else if cmd = SET_GAMEPAD_CFG ∨ cmd = SET_GYRO_CFG ∨ cmd = SET_KEY_MAP ∨
              cmd = SET_LIGHT_CFG ∨ cmd = SET_MOTOR_CFG ∨ cmd = SET_STICK_CFG ∨
              cmd = SET_TP_PARAM ∨ cmd = SET_TRIGGER_CFG then
        { d with last_cmd_ret := (db 0 : Int) }
      else
        { d with last_cmd_ret := 22 }
    RawEventResult.mk d1 true (-(d1.last_cmd_ret))

/-- The environment's behaviour for one issued command: the transmit
primitive may fail, the 5 ms bounded wait may time out or be interrupted,
or a response frame may be delivered on the inbound path (which runs
legos_cfg_raw_event and fires the completion only if that handler
reaches complete()). -/
inductive TransportOutcome where
  | sendFail (e : Int)
  | timeout
  | interrupted (e : Int)
  | response (frame : List Nat) (sz : Nat)
deriving Repr, DecidableEq

/-- Result of mcu_property_out: the driver state, the int return value, and
the frame actually handed to the transport together with the payload size
argument (none when the endpoint check rejects before any transport call). -/
structure MpoResult where
  d : Drvdata
  ret : Int
  sent : Option (List Nat × Nat)
deriving Repr, DecidableEq

/-- The outbound 65-byte frame built by mcu_property_out:
outbuf = command, index, then val[0..size-1], zero-filled to 65 bytes. -/
def build_outbuf (command index : Nat) (val : List Nat) (size : Nat) : List Nat :=
  command :: index :: (List.range 63).map (fun i => if i < size then val.getD i 0 else 0)

/-- mcu_property_out from the source: endpoint check, reset of the pending
call state (last_cmd_ret, last_cmd_val) under the config mutex, transmit,
then the bounded interruptible wait. A wait that returns 0 (timeout)
becomes -EBUSY; a positive return (completion fired) becomes 0; an
interrupted wait keeps its negative value. A delivered response runs
legos_cfg_raw_event; the completion only fires when that handler signals. -/
def mcu_property_out (d : Drvdata) (epOk : Bool) (command index : Nat)
    (val : List Nat) (size : Nat) (out : TransportOutcome) : MpoResult :=
  if epOk = false then MpoResult.mk d (-19) none
  else
    let outbuf := build_outbuf command index val size
    let d1 := { d with last_cmd_ret := 0, last_cmd_val := 0 }
    match out with
    | TransportOutcome.sendFail e => MpoResult.mk d1 e (some (outbuf, size))
    | TransportOutcome.timeout => MpoResult.mk d1 (-16) (some (outbuf, size))
    | TransportOutcome.interrupted e => MpoResult.mk d1 e (some (outbuf, size))
    | TransportOutcome.response frame sz =>
      let r := legos_cfg_raw_event sz frame d1
      if r.completed then MpoResult.mk r.d 0 (some (outbuf, size))
      else MpoResult.mk r.d (-16) (some (outbuf, size))

/-- An abstract transport/wait environment of type ε threaded through the
attribute operations: each call to mcu_property_out consults and updates it.
Instantiated with a constant TransportOutcome oracle, or with an echoing
device whose state is the last wire value it received. -/
def Issue (ε : Type) : Type :=
  ε → Drvdata → Nat → Nat → List Nat → Nat → ε × MpoResult

/-- Environment that fixes one transport outcome for the call, leaving it
unchanged for later calls. -/
def oracleIssue : Issue TransportOutcome :=
  fun out d c i v s => (out, mcu_property_out d true c i v s out)

/-- Result of a sysfs store operation: environment, driver state, ssize_t
return value, and the frame/size pair handed to the transport (none when
the operation returned before any transport call). -/
structure StoreResult (ε : Type) where
  env : ε
  d : Drvdata
  ret : Int
  sent : Option (List Nat × Nat)

/-- Result of a sysfs show operation: environment, driver state, ssize_t
return value, and the rendered text (none when an error was returned). -/
structure ShowResult (ε : Type) where
  env : ε
  d : Drvdata
  ret : Int
  out : Option String

/-- An empty string constant, used as List.getD fallback. -/
def blank : String := ""

/-- sysfs_match_string: the position of the exact matching label,
or -EINVAL when no label matches. -/
def sysfs_match_string (l : List String) (s : String) : Except Int Nat :=
  match l.findIdx? (fun x => x == s) with
  | none => Except.error (-22)
  | some i => Except.ok i

/-- Decimal accumulator over a character list; any non-digit fails. -/
def parse_digits (acc : Nat) : List Char → Option Nat
  | [] => some acc
  | c :: cs =>
    if 48 ≤ c.toNat ∧ c.toNat ≤ 57 then parse_digits (acc * 10 + (c.toNat - 48)) cs
    else none

/-- Decimal value of a non-empty all-digit character list. -/
def str_to_nat_list (l : List Char) : Option Nat :=
  match l with
  | [] => none
  | _ => parse_digits 0 l

/-- kstrtou8 with base 10: accepts an all-digit string whose value fits a
u8; overflow yields -ERANGE, a malformed string -EINVAL. -/
def kstrtou8 (s : String) : Except Int Nat :=
  match str_to_nat_list s.data with
  | none => Except.error (-22)
  | some v => if v > 255 then Except.error (-34) else Except.ok v

/-- kstrtoint with base 10: an optional leading minus sign then digits. -/
def kstrtoint (s : String) : Except Int Int :=
  match s.data with
  | [] => Except.error (-22)
  | c :: cs =>
    if c = '-' then
      match str_to_nat_list cs with
      | none => Except.error (-22)
      | some v => Except.ok (-(v : Int))
    else
      match str_to_nat_list (c :: cs) with
      | none => Except.error (-22)
      | some v => Except.ok (v : Int)

/-- The validation/parsing switch at the head of gamepad_property_store:
maps the input text to the wire value for the given GAMEPAD_CFG_INDEX, or
to the negative error returned before any transport activity. The dead
`val < 0 || val > 255` check of CFG_AUTO_SLP_TIME is kept as in the
source (kstrtou8 already bounds the value). -/
def gamepad_parse (index : Nat) (buf : String) : Except Int Nat :=
  if index = CFG_GAMEPAD_MODE then sysfs_match_string GAMEPAD_MODE_TEXT buf
  else if index = CFG_AUTO_SLP_TIME then
    match kstrtou8 buf with
    | Except.error e => Except.error e
    | Except.ok v => if v > 255 then Except.error (-22) else Except.ok v
  else if index = CFG_IMU_ENABLE then sysfs_match_string IMU_ENABLED_TEXT buf
  else if index = CFG_PASS_ENABLE ∨ index = CFG_LIGHT_ENABLE ∨ index = CFG_TPAD_ENABLE then
    sysfs_match_string FEATURE_ENABLE_STATUS_TEXT buf
  else if index = CFG_OS_TYPE then sysfs_match_string OS_TYPE_TEXT buf
  else if index = CFG_POLL_RATE then sysfs_match_string POLL_RATE_TEXT buf
  else if index = CFG_DPAD_MODE then sysfs_match_string DPAD_MODE_TEXT buf
  else if index = CFG_MS_WHEEL_STEP then
    match kstrtou8 buf with
    | Except.error e => Except.error e
    | Except.ok v => if v < 1 ∨ v > 127 then Except.error (-22) else Except.ok v
  else Except.error (-22)

/-- gamepad_property_store: parse/validate, then issue SET_GAMEPAD_CFG with
a zero-length payload when the wire value is 0 and a 1-byte payload
otherwise; a negative issue result or a non-zero device status is returned
as the error, and success returns the caller's byte count. -/
def gamepad_property_store {ε : Type} (issue : Issue ε) (env : ε) (d : Drvdata)
    (index : Nat) (buf : String) (count : Nat) : StoreResult ε :=
  match gamepad_parse index buf with
  | Except.error e => StoreResult.mk env d e none
  | Except.ok val =>
    let size : Nat := if val = 0 then 0 else 1
    let p := issue env d SET_GAMEPAD_CFG index [val] size
    if p.2.ret < 0 then StoreResult.mk p.1 p.2.d p.2.ret p.2.sent
    else if p.2.d.last_cmd_ret ≠ 0 then
      StoreResult.mk p.1 p.2.d (-(p.2.d.last_cmd_ret)) p.2.sent
    else StoreResult.mk p.1 p.2.d (count : Int) p.2.sent

/-- The rendering switch of gamepad_property_show: maps the raw response
byte to the emitted text, or to none when the byte lies outside the
property's domain (the -EINVAL decode error). -/
def gamepad_render (index i : Nat) : Option String :=
  if index = CFG_GAMEPAD_MODE then
    if i > 1 then none else some (GAMEPAD_MODE_TEXT.getD i blank ++ "\n")
  else if index = CFG_AUTO_SLP_TIME then some (toString i ++ "\n")
  else if index = CFG_IMU_ENABLE then
    if i > 2 then none else some (IMU_ENABLED_TEXT.getD i blank ++ "\n")
  else if index = CFG_PASS_ENABLE ∨ index = CFG_LIGHT_ENABLE ∨ index = CFG_TPAD_ENABLE then
    if i > 1 then none else some (FEATURE_ENABLE_STATUS_TEXT.getD i blank ++ "\n")
  else if index = CFG_OS_TYPE then
    if i > 1 then none else some (OS_TYPE_TEXT.getD i blank ++ "\n")
  else if index = CFG_POLL_RATE then
    if i > 3 then none else some (POLL_RATE_TEXT.getD i blank ++ "\n")
  else if index = CFG_DPAD_MODE then
    if i > 1 then none else some (DPAD_MODE_TEXT.getD i blank ++ "\n")
  else if index = CFG_MS_WHEEL_STEP then
    if i < 1 ∨ i > 127 then none else some (toString i ++ "\n")
  else none

/-- Conversion of the int returned by mcu_property_out into the size_t
local `count` of the show functions (C's value-preserving-mod-2^64
unsigned conversion). -/
def u64_of_int (z : Int) : Nat := (z % 18446744073709551616).toNat

/-- Conversion of a size_t value back to the ssize_t function result. -/
def ssize_of_u64 (n : Nat) : Int :=
  if n < 9223372036854775808 then (n : Int) else (n : Int) - 18446744073709551616

/-- gamepad_property_show: issue GET_GAMEPAD_CFG, then — as in the source,
where `count` is declared size_t — test `count < 0` on the unsigned value,
check the stored result code, and render the cached response byte through
the property's domain. -/
def gamepad_property_show {ε : Type} (issue : Issue ε) (env : ε) (d : Drvdata)
    (index : Nat) : ShowResult ε :=
  let p := issue env d GET_GAMEPAD_CFG index [] 0
  let count : Nat := u64_of_int p.2.ret
  if count < 0 then ShowResult.mk p.1 p.2.d (ssize_of_u64 count) none
  else if p.2.d.last_cmd_ret ≠ 0 then
    ShowResult.mk p.1 p.2.d (-(p.2.d.last_cmd_ret)) none
  else
    match gamepad_render index p.2.d.last_cmd_val with
    | none => ShowResult.mk p.1 p.2.d (-22) none
    | some s => ShowResult.mk p.1 p.2.d (s.length : Int) (some s)

/-- The validation switch of touchpad_property_store. -/
def touchpad_parse (index : Nat) (buf : String) : Except Int Nat :=
  if index = CFG_WINDOWS_MODE ∨ index = CFG_LINUX_MODE then
    sysfs_match_string TOUCHPAD_MODE_TEXT buf
  else Except.error (-22)

/-- touchpad_property_store, same shape as the gamepad store but issuing
SET_TP_PARAM. -/
def touchpad_property_store {ε : Type} (issue : Issue ε) (env : ε) (d : Drvdata)
    (index : Nat) (buf : String) (count : Nat) : StoreResult ε :=
  match touchpad_parse index buf with
  | Except.error e => StoreResult.mk env d e none
  | Except.ok val =>
    let size : Nat := if val = 0 then 0 else 1
    let p := issue env d SET_TP_PARAM index [val] size
    if p.2.ret < 0 then StoreResult.mk p.1 p.2.d p.2.ret p.2.sent
    else if p.2.d.last_cmd_ret ≠ 0 then
      StoreResult.mk p.1 p.2.d (-(p.2.d.last_cmd_ret)) p.2.sent
    else StoreResult.mk p.1 p.2.d (count : Int) p.2.sent

/-- The rendering switch of touchpad_property_show. -/
def touchpad_render (index i : Nat) : Option String :=
  if index = CFG_WINDOWS_MODE ∨ index = CFG_LINUX_MODE then
    if i > 1 then none else some (TOUCHPAD_MODE_TEXT.getD i blank ++ "\n")
  else none

/-- touchpad_property_show, with the same size_t `count` local as in the
source. -/
def touchpad_property_show {ε : Type} (issue : Issue ε) (env : ε) (d : Drvdata)
    (index : Nat) : ShowResult ε :=
  let p := issue env d GET_TP_PARAM index [] 0
  let count : Nat := u64_of_int p.2.ret
  if count < 0 then ShowResult.mk p.1 p.2.d (ssize_of_u64 count) none
  else if p.2.d.last_cmd_ret ≠ 0 then
    ShowResult.mk p.1 p.2.d (-(p.2.d.last_cmd_ret)) none
  else
    match touchpad_render index p.2.d.last_cmd_val with
    | none => ShowResult.mk p.1 p.2.d (-22) none
    | some s => ShowResult.mk p.1 p.2.d (s.length : Int) (some s)

/-- The rendering switch of test_property_show. -/
def test_render (index i : Nat) : Option String :=
  if index = TEST_TP_MFR then
    if i > 2 then none else some (TP_MANUFACTURER_TEXT.getD i blank ++ "\n")
  else if index = TEST_IMU_MFR then
    if i > 2 then none else some (IMU_MANUFACTURER_TEXT.getD i blank ++ "\n")
  else if index = TEST_TP_VER then some (toString i ++ "\n")
  else none

/-- test_property_show, issuing GET_PL_TEST, with the same size_t `count`
local as in the source. -/
def test_property_show {ε : Type} (issue : Issue ε) (env : ε) (d : Drvdata)
    (index : Nat) : ShowResult ε :=
  let p := issue env d GET_PL_TEST index [] 0
  let count : Nat := u64_of_int p.2.ret
  if count < 0 then ShowResult.mk p.1 p.2.d (ssize_of_u64 count) none
  else if p.2.d.last_cmd_ret ≠ 0 then
    ShowResult.mk p.1 p.2.d (-(p.2.d.last_cmd_ret)) none
  else
    match test_render index p.2.d.last_cmd_val with
    | none => ShowResult.mk p.1 p.2.d (-22) none
    | some s => ShowResult.mk p.1 p.2.d (s.length : Int) (some s)

/-- mcu_id_get from the source: memcmp the cached 12-byte id against zero;
a non-zero cache returns -ENOMEM at once (no transport call), a zero cache
issues GET_MCU_ID and returns the negated stored result code (0 on
success). -/
def mcu_id_get {ε : Type} (issue : Issue ε) (env : ε) (d : Drvdata) : StoreResult ε :=
  if d.mcu_id ≠ List.replicate 12 0 then StoreResult.mk env d (-12) none
  else
    let p := issue env d GET_MCU_ID 0 [] 0
    if p.2.ret < 0 then StoreResult.mk p.1 p.2.d p.2.ret p.2.sent
    else StoreResult.mk p.1 p.2.d (-(p.2.d.last_cmd_ret)) p.2.sent

/-- mcu_version_get from the source, the 4-byte analogue of mcu_id_get
issuing GET_VERSION. -/
def mcu_version_get {ε : Type} (issue : Issue ε) (env : ε) (d : Drvdata) : StoreResult ε :=
  if d.mcu_ver ≠ List.replicate 4 0 then StoreResult.mk env d (-12) none
  else
    let p := issue env d GET_VERSION 0 [] 0
    if p.2.ret < 0 then StoreResult.mk p.1 p.2.d p.2.ret p.2.sent
    else StoreResult.mk p.1 p.2.d (-(p.2.d.last_cmd_ret)) p.2.sent

/-- rgb_cfg_call from the source: only GET/SET_LIGHT_CFG commands and
light-config indexes between LIGHT_MODE_SEL (1) and USR_LIGHT_PROFILE_3 (5)
are accepted; any non-zero issue result, then any non-zero stored result
code, is returned as the error. -/
def rgb_cfg_call {ε : Type} (issue : Issue ε) (env : ε) (d : Drvdata)
    (cmd index : Nat) (val : List Nat) (size : Nat) : StoreResult ε :=
  if cmd ≠ GET_LIGHT_CFG ∧ cmd ≠ SET_LIGHT_CFG then StoreResult.mk env d (-22) none
  else if index < LIGHT_MODE_SEL ∨ index > USR_LIGHT_PROFILE_3 then
    StoreResult.mk env d (-22) none
  else
    let p := issue env d cmd index val size
    if p.2.ret ≠ 0 then StoreResult.mk p.1 p.2.d p.2.ret p.2.sent
    else if p.2.d.last_cmd_ret ≠ 0 then
      StoreResult.mk p.1 p.2.d (-(p.2.d.last_cmd_ret)) p.2.sent
    else StoreResult.mk p.1 p.2.d 0 p.2.sent

/-- rgb_profile_call from the source: derives the light-config index as the
cached profile selector plus 2 and delegates to rgb_cfg_call. -/
def rgb_profile_call {ε : Type} (issue : Issue ε) (env : ε) (d : Drvdata)
    (cmd : Nat) (val : List Nat) (size : Nat) : StoreResult ε :=
  if cmd ≠ SET_LIGHT_CFG ∧ cmd ≠ GET_LIGHT_CFG then StoreResult.mk env d (-22) none
  else rgb_cfg_call issue env d cmd (d.rgb_profile + 2) val size

/-- rgb_write_profile: the 6-byte profile record built from the in-memory
RGB state, written via rgb_profile_call with SET_LIGHT_CFG. -/
def rgb_write_profile {ε : Type} (issue : Issue ε) (env : ε) (d : Drvdata) : StoreResult ε :=
  rgb_profile_call issue env d SET_LIGHT_CFG
    [d.rgb_effect, d.intensity.getD 0 0, d.intensity.getD 1 0, d.intensity.getD 2 0,
     d.brightness, d.rgb_speed] 6

/-- rgb_attr_store: rejected with -EINVAL unless the cached mode is Custom
(1); otherwise performs the full profile write. -/
def rgb_attr_store {ε : Type} (issue : Issue ε) (env : ε) (d : Drvdata) : StoreResult ε :=
  if d.rgb_mode ≠ 1 then StoreResult.mk env d (-22) none
  else
    let r := rgb_write_profile issue env d
    if r.ret < 0 then r
    else if r.d.last_cmd_ret ≠ 0 then
      StoreResult.mk r.env r.d (-(r.d.last_cmd_ret)) r.sent
    else StoreResult.mk r.env r.d 0 r.sent

/-- rgb_speed_store: parse the speed, reject values outside 0..100 with
-EINVAL before touching any state, then update the in-memory speed and
perform the profile write; success returns the caller's byte count. -/
def rgb_speed_store {ε : Type} (issue : Issue ε) (env : ε) (d : Drvdata)
    (buf : String) (count : Nat) : StoreResult ε :=
  match kstrtoint buf with
  | Except.error e => StoreResult.mk env d e none
  | Except.ok v =>
    if v > 100 ∨ v < 0 then StoreResult.mk env d (-22) none
    else
      let d1 := { d with rgb_speed := v.toNat }
      let r := rgb_attr_store issue env d1
      if r.ret ≠ 0 then r
      else StoreResult.mk r.env r.d (count : Int) r.sent

/-- A test-stub device for the round-trip property: it remembers the wire
value of the last SET_GAMEPAD_CFG / SET_TP_PARAM frame (byte 2 of the
frame; a zero-length payload leaves that byte 0) and echoes it back as
data[0] of the matching GET response; SET responses report status 0. -/
def echo_device (dev : Nat) (frame : List Nat) : Nat × List Nat :=
  let cmd := frame.getD 0 0
  let idx := frame.getD 1 0
  if cmd = SET_GAMEPAD_CFG then
    (frame.getD 2 0, SET_GAMEPAD_CFG :: idx :: 0 :: List.replicate 62 0)
  else if cmd = GET_GAMEPAD_CFG then
    (dev, GET_GAMEPAD_CFG :: idx :: dev :: List.replicate 62 0)
  else if cmd = SET_TP_PARAM then
    (frame.getD 2 0, SET_TP_PARAM :: idx :: 0 :: List.replicate 62 0)
  else if cmd = GET_TP_PARAM then
    (dev, GET_TP_PARAM :: idx :: dev :: List.replicate 62 0)
  else (dev, List.replicate 65 0)

/-- The echoing transport environment: every issued frame is answered by
echo_device with a well-sized 65-byte response. -/
def echoIssue : Issue Nat :=
  fun dev d c i v s =>
    let frame := build_outbuf c i v s
    let p := echo_device dev frame
    (p.1, mcu_property_out d true c i v s (TransportOutcome.response p.2 65))

/-- set(label) followed by get() against the echoing transport, for a
gamepad property: the pair of the store's return value and the show's
rendered text. -/
def gp_set_then_get (dev : Nat) (d : Drvdata) (index : Nat) (label : String)
    (count : Nat) : Int × Option String :=
  let r := gamepad_property_store echoIssue dev d index label count
  let s := gamepad_property_show echoIssue r.env r.d index
  (r.ret, s.out)

/-- set(label) followed by get() against the echoing transport, for a
touchpad property. -/
def tp_set_then_get (dev : Nat) (d : Drvdata) (index : Nat) (label : String)
    (count : Nat) : Int × Option String :=
  let r := touchpad_property_store echoIssue dev d index label count
  let s := touchpad_property_show echoIssue r.env r.d index
  (r.ret, s.out)

end Legos

namespace Zotac

/-- EC_FAN_MODE register values from the source. -/
def EC_FAN_MODE_AUTO : Nat := 0
def EC_FAN_MODE_MANUAL : Nat := 1
def EC_FAN_MODE_CURVE : Nat := 2

/-- The driver/EC state that set_fan_mode touches: the EC fan-control
register content, the cached fan_mode field, the driver-side curve flag and
whether the periodic curve timer is armed. -/
structure FanState where
  ec_ctrl : Nat
  fan_mode : Nat
  curve_enabled : Bool
  timer_on : Bool
deriving Repr, DecidableEq

/-- Result of set_fan_mode: the new state, the int return value, and the
list of values written to the EC fan-control register during the call. -/
structure FanModeResult where
  s : FanState
  ret : Int
  writes : List Nat
deriving Repr, DecidableEq

/-- set_fan_mode from the source: entering Curve (2) sets the driver flag,
writes Manual (1) to the EC control register and arms the periodic timer;
any other requested mode first clears the flag and cancels the timer when
curve mode was active, then writes the requested mode verbatim.
ec_write_byte always returns 0, as in the source. -/
def set_fan_mode (s : FanState) (mode : Nat) : FanModeResult :=
  if mode = EC_FAN_MODE_CURVE then
    FanModeResult.mk
      { s with curve_enabled := true, ec_ctrl := EC_FAN_MODE_MANUAL,
               fan_mode := EC_FAN_MODE_MANUAL, timer_on := true }
      0 [EC_FAN_MODE_MANUAL]
  else
    let s1 := if s.curve_enabled then { s with curve_enabled := false, timer_on := false } else s
    FanModeResult.mk { s1 with ec_ctrl := mode, fan_mode := mode } 0 [mode]

/-- The linear-interpolation step of fan_curve_function for one interval:
int arithmetic with C's truncating division, guarded by `temp_range > 0`
exactly as in the source. -/
def curve_interp (t t0 p0 t1 p1 : Nat) : Int :=
  let temp_range : Int := (t1 : Int) - (t0 : Int)
  let pwm_range : Int := (p1 : Int) - (p0 : Int)
  let temp_offset : Int := (t : Int) - (t0 : Int)
  if 0 < temp_range then (p0 : Int) + (pwm_range * temp_offset).tdiv temp_range
  else (p0 : Int)

/-- The first-match interval search of fan_curve_function: walk adjacent
(temperature, pwm) pairs in stored order; the first interval
[temp i, temp (i+1)) containing t is interpolated, and if no interval
matches the initial pwm value is kept. -/
def curve_loop (t : Nat) : List Nat → List Nat → Int → Int
  | t0 :: t1 :: ts, p0 :: p1 :: ps, pwm =>
    if t0 ≤ t ∧ t < t1 then curve_interp t t0 p0 t1 p1
    else curve_loop t (t1 :: ts) (p1 :: ps) pwm
  | _, _, pwm => pwm

/-- The duty computation of fan_curve_function: pwm starts at
curve_pwm[0]; a temperature at or above the last breakpoint yields
curve_pwm[8], otherwise the first matching interval is interpolated. -/
def fan_curve_eval (ct cp : List Nat) (t : Nat) : Int :=
  if ct.getD 8 0 ≤ t then (cp.getD 8 0 : Int)
  else curve_loop t ct cp (cp.getD 0 0 : Int)

/-- The default curve temperatures installed at probe: 10 to 90 in steps
of 10. -/
def default_curve_temp : List Nat :=
  (List.range 9).map (fun i => 10 + i * 10)

/-- The default curve PWM values installed at probe: 20 + 10*i, clamped
to 100. -/
def default_curve_pwm : List Nat :=
  (List.range 9).map (fun i => if 20 + i * 10 > 100 then 100 else 20 + i * 10)

end Zotac

open Legos Zotac

/-- Whatever the transport outcome, mcu_property_out with a valid endpoint
hands exactly the built frame and the payload size to the transport. -/
lemma mcu_property_out_sent (d : Drvdata) (c i : Nat) (v : List Nat) (s : Nat)
    (out : TransportOutcome) :
    (mcu_property_out d true c i v s out).sent = some (build_outbuf c i v s, s) := by
  cases out <;> simp only [mcu_property_out, Bool.true_eq_false, if_false]
  split <;> rfl

/-- A response frame of the correct packet size always signals completion:
every branch of the decode switch falls through to complete(). -/
lemma raw_event_full_size_completed (frame : List Nat) (d : Drvdata) :
    (legos_cfg_raw_event GO_S_PACKET_SIZE frame d).completed = true := by
  simp [legos_cfg_raw_event]

/-- C1: for every property operation issued through mcu_property_out, a
completion signal that does not fire within the timeout makes the
operation return -EBUSY; a fired signal (a delivered full-size response)
makes it return 0 even when the device reported a non-zero protocol
status, that status being stored in last_cmd_ret instead of failing the
issue operation. -/
theorem mcu_property_out_timeout_busy_fired_success :
    ∀ (d : Drvdata) (c i : Nat) (v : List Nat) (s : Nat) (frame : List Nat) (st : Nat),
      (mcu_property_out d true c i v s TransportOutcome.timeout).ret = -16 ∧
      (mcu_property_out d true c i v s (TransportOutcome.response frame GO_S_PACKET_SIZE)).ret = 0 ∧
      (mcu_property_out d true SET_GAMEPAD_CFG i v s
        (TransportOutcome.response (SET_GAMEPAD_CFG :: i :: st :: List.replicate 62 0)
          GO_S_PACKET_SIZE)).ret = 0 ∧
      (mcu_property_out d true SET_GAMEPAD_CFG i v s
        (TransportOutcome.response (SET_GAMEPAD_CFG :: i :: st :: List.replicate 62 0)
          GO_S_PACKET_SIZE)).d.last_cmd_ret = (st : Int) := by
  intro d c i v s frame st
  refine ⟨rfl, ?_, ?_, ?_⟩
  · simp [mcu_property_out, raw_event_full_size_completed]
  · simp [mcu_property_out, raw_event_full_size_completed]
  · simp [mcu_property_out, raw_event_full_size_completed, legos_cfg_raw_event,
      GET_VERSION, GET_MCU_ID, GET_GAMEPAD_CFG, GET_TP_PARAM, GET_PL_TEST,
      GET_LIGHT_CFG, GET_GYRO_CFG, GET_KEY_MAP, GET_MOTOR_CFG, GET_STICK_CFG,
      GET_TRIGGER_CFG, SET_GAMEPAD_CFG, GO_S_PACKET_SIZE]

/-- C2 counterexample: a frame one byte short of the packet size does not
signal the pending call's completion at all — the handler returns -EINVAL
before reaching complete(), refuting the claim that the completion is
still signaled with an error status. -/
theorem raw_event_short_frame_not_signaled :
    (legos_cfg_raw_event 64 (List.replicate 64 0) init_drvdata).completed = false ∧
    (legos_cfg_raw_event 64 (List.replicate 64 0) init_drvdata).ret = -22 := by
  constructor <;> rfl

/-- C2 amended: a frame whose length differs from the 65-byte packet size
makes the handler return -EINVAL without signaling completion and without
touching the driver state; the waiting issuer is therefore not woken by
it and instead times out, returning -EBUSY (a bounded wait, not an
indefinite hang). -/
theorem raw_event_length_mismatch_no_signal :
    ∀ (sz : Nat) (frame : List Nat) (d : Drvdata), sz ≠ GO_S_PACKET_SIZE →
      (legos_cfg_raw_event sz frame d).completed = false ∧
      (legos_cfg_raw_event sz frame d).ret = -22 ∧
      (legos_cfg_raw_event sz frame d).d = d ∧
      (∀ (c i : Nat) (v : List Nat) (s : Nat),
        (mcu_property_out d true c i v s (TransportOutcome.response frame sz)).ret = -16) := by
  intro sz frame d h
  refine ⟨?_, ?_, ?_, ?_⟩
  · simp [legos_cfg_raw_event, h]
  · simp [legos_cfg_raw_event, h]
  · simp [legos_cfg_raw_event, h]
  · intro c i v s
    simp [mcu_property_out, legos_cfg_raw_event, h]

/-- C2 witness: at size 64 the issuer of a GET gamepad command times out
with -EBUSY. -/
theorem raw_event_length_mismatch_no_signal_witness :
    (mcu_property_out init_drvdata true GET_GAMEPAD_CFG CFG_GAMEPAD_MODE [] 0
      (TransportOutcome.response (List.replicate 64 0) 64)).ret = -16 :=
  (raw_event_length_mismatch_no_signal 64 (List.replicate 64 0) init_drvdata
    (by decide)).2.2.2 GET_GAMEPAD_CFG CFG_GAMEPAD_MODE [] 0

/-- C4: set_fan_mode never writes the literal Curve value (2) to the EC
fan-control register: entering Curve writes Manual (1) and arms the
periodic timer, and switching from Curve to Auto leaves the register at
the Auto value (0) with the curve flag cleared and the timer stopped. -/
theorem set_fan_mode_never_writes_curve :
    ∀ (s : FanState) (mode : Nat),
      EC_FAN_MODE_CURVE ∉ (set_fan_mode s mode).writes ∧
      ((set_fan_mode s EC_FAN_MODE_CURVE).s.ec_ctrl = EC_FAN_MODE_MANUAL ∧
       (set_fan_mode s EC_FAN_MODE_CURVE).writes = [EC_FAN_MODE_MANUAL] ∧
       (set_fan_mode s EC_FAN_MODE_CURVE).s.curve_enabled = true ∧
       (set_fan_mode s EC_FAN_MODE_CURVE).s.timer_on = true) ∧
      ((set_fan_mode (set_fan_mode s EC_FAN_MODE_CURVE).s EC_FAN_MODE_AUTO).s.ec_ctrl
          = EC_FAN_MODE_AUTO ∧
       (set_fan_mode (set_fan_mode s EC_FAN_MODE_CURVE).s EC_FAN_MODE_AUTO).s.curve_enabled
          = false ∧
       (set_fan_mode (set_fan_mode s EC_FAN_MODE_CURVE).s EC_FAN_MODE_AUTO).s.timer_on
          = false) := by
  intro s mode
  refine ⟨?_, ?_, ?_⟩
  · by_cases h : mode = EC_FAN_MODE_CURVE
    · subst h
      simp [set_fan_mode, EC_FAN_MODE_CURVE, EC_FAN_MODE_MANUAL]
    · simp [set_fan_mode, h]
      intro hc
      exact absurd hc.symm h
  · simp [set_fan_mode, EC_FAN_MODE_CURVE, EC_FAN_MODE_MANUAL]
  · simp [set_fan_mode, EC_FAN_MODE_CURVE, EC_FAN_MODE_MANUAL, EC_FAN_MODE_AUTO]

/-- C5: the show paths declare their accumulator `count` as size_t, so the
`count < 0` check on the value returned by mcu_property_out can never
fire; when the GET issue fails (here: the 5 ms wait times out, so
mcu_property_out returns -EBUSY and last_cmd_ret stays 0), the show
functions do not return the negative error — they fall through and render
the reset cache value, returning its positive byte count. -/
theorem show_error_check_dead_renders_stale_value :
    (mcu_property_out init_drvdata true GET_GAMEPAD_CFG CFG_GAMEPAD_MODE [] 0
      TransportOutcome.timeout).ret = -16 ∧
    (gamepad_property_show oracleIssue TransportOutcome.timeout init_drvdata
      CFG_GAMEPAD_MODE).ret = 7 ∧
    (gamepad_property_show oracleIssue TransportOutcome.timeout init_drvdata
      CFG_GAMEPAD_MODE).out = some ("xinput\n") ∧
    (touchpad_property_show oracleIssue TransportOutcome.timeout init_drvdata
      CFG_WINDOWS_MODE).ret = 9 ∧
    (touchpad_property_show oracleIssue TransportOutcome.timeout init_drvdata
      CFG_WINDOWS_MODE).out = some ("relative\n") ∧
    (test_property_show oracleIssue TransportOutcome.timeout init_drvdata
      TEST_TP_MFR).ret = 5 := by
  refine ⟨rfl, ?_, ?_, ?_, ?_, ?_⟩ <;> decide

/-- C6: an out-of-domain value is rejected, never clamped or defaulted: a
mouse-wheel-step store whose parsed u8 lies outside 1..127 and an
rgb-speed store whose parsed int lies outside 0..100 fail with -EINVAL
before any transport call (sent = none), and a gamepad-mode show whose
response byte exceeds 1 fails with -EINVAL instead of rendering a label. -/
theorem domain_violations_rejected :
    (∀ (buf : String) (v : Nat) (d : Drvdata) (out : TransportOutcome) (count : Nat),
      kstrtou8 buf = Except.ok v → (v < 1 ∨ v > 127) →
      (gamepad_property_store oracleIssue out d CFG_MS_WHEEL_STEP buf count).ret = -22 ∧
      (gamepad_property_store oracleIssue out d CFG_MS_WHEEL_STEP buf count).sent = none) ∧
    (∀ (buf : String) (v : Int) (d : Drvdata) (out : TransportOutcome) (count : Nat),
      kstrtoint buf = Except.ok v → (v > 100 ∨ v < 0) →
      (rgb_speed_store oracleIssue out d buf count).ret = -22 ∧
      (rgb_speed_store oracleIssue out d buf count).sent = none) ∧
    (∀ (b : Nat) (d : Drvdata), 1 < b → b < 256 →
      (gamepad_property_show oracleIssue
        (TransportOutcome.response
          (GET_GAMEPAD_CFG :: CFG_GAMEPAD_MODE :: b :: List.replicate 62 0) GO_S_PACKET_SIZE)
        d CFG_GAMEPAD_MODE).ret = -22 ∧
      (gamepad_property_show oracleIssue
        (TransportOutcome.response
          (GET_GAMEPAD_CFG :: CFG_GAMEPAD_MODE :: b :: List.replicate 62 0) GO_S_PACKET_SIZE)
        d CFG_GAMEPAD_MODE).out = none) := by
  refine ⟨?_, ?_, ?_⟩
  · intro buf v d out count hp hv
    have h' : v = 0 ∨ 127 < v := by omega
    constructor <;>
      simp [gamepad_property_store, gamepad_parse, CFG_MS_WHEEL_STEP, CFG_GAMEPAD_MODE,
        CFG_AUTO_SLP_TIME, CFG_IMU_ENABLE, CFG_PASS_ENABLE, CFG_LIGHT_ENABLE,
        CFG_TPAD_ENABLE, CFG_OS_TYPE, CFG_POLL_RATE, CFG_DPAD_MODE, hp, h']
  · intro buf v d out count hp hv
    constructor <;> simp [rgb_speed_store, hp, hv]
  · intro b d hb hb2
    have hgt : b > 1 := hb
    constructor <;>
      simp [gamepad_property_show, oracleIssue, mcu_property_out, legos_cfg_raw_event,
        GO_S_PACKET_SIZE, GET_VERSION, GET_MCU_ID, GET_GAMEPAD_CFG, GET_TP_PARAM,
        GET_PL_TEST, GET_LIGHT_CFG, GET_GYRO_CFG, GET_KEY_MAP, GET_MOTOR_CFG,
        GET_STICK_CFG, GET_TRIGGER_CFG, SET_GAMEPAD_CFG, CFG_GAMEPAD_MODE,
        gamepad_render, u64_of_int, hgt]

/-- C6 witness: wheel step 0, rgb speed 101, and gamepad-mode byte 2 are
all rejected with -EINVAL. -/
theorem domain_violations_rejected_witness :
    (gamepad_property_store oracleIssue TransportOutcome.timeout init_drvdata
      CFG_MS_WHEEL_STEP ("0") 1).ret = -22 ∧
    (rgb_speed_store oracleIssue TransportOutcome.timeout init_drvdata ("101") 3).sent = none ∧
    (gamepad_property_show oracleIssue
      (TransportOutcome.response
        (GET_GAMEPAD_CFG :: CFG_GAMEPAD_MODE :: 2 :: List.replicate 62 0) GO_S_PACKET_SIZE)
      init_drvdata CFG_GAMEPAD_MODE).ret = -22 := by
  refine ⟨?_, ?_, ?_⟩
  · exact (domain_violations_rejected.1 ("0") 0 init_drvdata TransportOutcome.timeout 1
      (by rfl) (by decide)).1
  · exact (domain_violations_rejected.2.1 ("101") 101 init_drvdata TransportOutcome.timeout 3
      (by rfl) (by decide)).2
  · exact (domain_violations_rejected.2.2 2 init_drvdata (by decide) (by decide)).1

/-- A SET response frame reporting protocol status 0. -/
def set_ok_response (c i : Nat) : TransportOutcome :=
  TransportOutcome.response (c :: i :: 0 :: List.replicate 62 0) GO_S_PACKET_SIZE

/-- C7: every gamepad or touchpad store transmits a zero-length payload
when the parsed wire value is 0 and a 1-byte payload otherwise, and a
successful set returns the caller's input byte count. -/
theorem store_zero_payload_convention :
    ∀ (index : Nat) (buf : String) (v : Nat) (d : Drvdata) (count : Nat),
      (gamepad_parse index buf = Except.ok v →
        (gamepad_property_store oracleIssue (set_ok_response SET_GAMEPAD_CFG index)
            d index buf count).sent
          = some (build_outbuf SET_GAMEPAD_CFG index [v] (if v = 0 then 0 else 1),
              if v = 0 then 0 else 1) ∧
        (gamepad_property_store oracleIssue (set_ok_response SET_GAMEPAD_CFG index)
            d index buf count).ret = (count : Int)) ∧
      (touchpad_parse index buf = Except.ok v →
        (touchpad_property_store oracleIssue (set_ok_response SET_TP_PARAM index)
            d index buf count).sent
          = some (build_outbuf SET_TP_PARAM index [v] (if v = 0 then 0 else 1),
              if v = 0 then 0 else 1) ∧
        (touchpad_property_store oracleIssue (set_ok_response SET_TP_PARAM index)
            d index buf count).ret = (count : Int)) := by
  intro index buf v d count
  constructor
  · intro hp
    constructor <;>
      simp [gamepad_property_store, hp, oracleIssue, set_ok_response, mcu_property_out,
        legos_cfg_raw_event, GO_S_PACKET_SIZE, GET_VERSION, GET_MCU_ID, GET_GAMEPAD_CFG,
        GET_TP_PARAM, GET_PL_TEST, GET_LIGHT_CFG, GET_GYRO_CFG, GET_KEY_MAP,
        GET_MOTOR_CFG, GET_STICK_CFG, GET_TRIGGER_CFG, SET_GAMEPAD_CFG]
  · intro hp
    constructor <;>
      simp [touchpad_property_store, hp, oracleIssue, set_ok_response, mcu_property_out,
        legos_cfg_raw_event, GO_S_PACKET_SIZE, GET_VERSION, GET_MCU_ID, GET_GAMEPAD_CFG,
        GET_TP_PARAM, GET_PL_TEST, GET_LIGHT_CFG, GET_GYRO_CFG, GET_KEY_MAP,
        GET_MOTOR_CFG, GET_STICK_CFG, GET_TRIGGER_CFG, SET_GAMEPAD_CFG, SET_TP_PARAM,
        SET_GYRO_CFG, SET_KEY_MAP, SET_LIGHT_CFG, SET_MOTOR_CFG, SET_STICK_CFG,
        SET_TRIGGER_CFG]

/-- C7 witness: storing gamepad mode value "xinput" (wire 0) transmits a
zero-size payload and returns the byte count 7; storing "dinput" (wire 1)
transmits one byte. -/
theorem store_zero_payload_convention_witness :
    (gamepad_property_store oracleIssue (set_ok_response SET_GAMEPAD_CFG CFG_GAMEPAD_MODE)
        init_drvdata CFG_GAMEPAD_MODE ("xinput") 7).sent
      = some (build_outbuf SET_GAMEPAD_CFG CFG_GAMEPAD_MODE [0] 0, 0) ∧
    (gamepad_property_store oracleIssue (set_ok_response SET_GAMEPAD_CFG CFG_GAMEPAD_MODE)
        init_drvdata CFG_GAMEPAD_MODE ("dinput") 7).sent
      = some (build_outbuf SET_GAMEPAD_CFG CFG_GAMEPAD_MODE [1] 1, 1) ∧
    (gamepad_property_store oracleIssue (set_ok_response SET_GAMEPAD_CFG CFG_GAMEPAD_MODE)
        init_drvdata CFG_GAMEPAD_MODE ("dinput") 7).ret = 7 := by
  refine ⟨?_, ?_, ?_⟩
  · exact ((store_zero_payload_convention CFG_GAMEPAD_MODE ("xinput") 0 init_drvdata 7).1
      (by rfl)).1
  · exact ((store_zero_payload_convention CFG_GAMEPAD_MODE ("dinput") 1 init_drvdata 7).1
      (by rfl)).1
  · exact ((store_zero_payload_convention CFG_GAMEPAD_MODE ("dinput") 1 init_drvdata 7).1
      (by rfl)).2

/-- C9 counterexample: with a non-zero cached MCU id the getter does not
complete successfully — it returns -ENOMEM (and makes no transport
call), refuting the claim that the operation succeeds from the cache. -/
theorem mcu_id_get_cached_not_success :
    (mcu_id_get oracleIssue TransportOutcome.timeout
      { init_drvdata with mcu_id := 1 :: List.replicate 11 0 }).ret = -12 ∧
    (mcu_id_get oracleIssue TransportOutcome.timeout
      { init_drvdata with mcu_id := 1 :: List.replicate 11 0 }).sent = none ∧
    ((-12 : Int) ≠ 0) := by
  refine ⟨?_, ?_, ?_⟩ <;> decide

/-- C9 amended: the identity getters are lazy — an all-zero cached id or
version issues the corresponding GET command (and a delivered response
populates the cache), while a non-zero cache performs no transport
activity; but in the cached case the getter returns -ENOMEM, an error its
caller treats as a failure, rather than success. -/
theorem mcu_identity_lazy_fetch :
    ∀ (d : Drvdata) (out : TransportOutcome),
      (d.mcu_id = List.replicate 12 0 →
        (mcu_id_get oracleIssue out d).sent = some (build_outbuf GET_MCU_ID 0 [] 0, 0)) ∧
      (d.mcu_id ≠ List.replicate 12 0 →
        (mcu_id_get oracleIssue out d).sent = none ∧
        (mcu_id_get oracleIssue out d).ret = -12) ∧
      (d.mcu_ver = List.replicate 4 0 →
        (mcu_version_get oracleIssue out d).sent = some (build_outbuf GET_VERSION 0 [] 0, 0)) ∧
      (d.mcu_ver ≠ List.replicate 4 0 →
        (mcu_version_get oracleIssue out d).sent = none ∧
        (mcu_version_get oracleIssue out d).ret = -12) ∧
      ((mcu_id_get oracleIssue
          (TransportOutcome.response (GET_MCU_ID :: 7 :: List.replicate 63 9) GO_S_PACKET_SIZE)
          init_drvdata).d.mcu_id = 7 :: List.replicate 11 9 ∧
       (mcu_id_get oracleIssue
          (TransportOutcome.response (GET_MCU_ID :: 7 :: List.replicate 63 9) GO_S_PACKET_SIZE)
          init_drvdata).ret = 0) := by
  intro d out
  refine ⟨?_, ?_, ?_, ?_, ?_⟩
  · intro h
    unfold mcu_id_get
    rw [if_neg (fun hn => hn h)]
    simp [oracleIssue, apply_ite StoreResult.sent, mcu_property_out_sent]
  · intro h
    unfold mcu_id_get
    rw [if_pos h]
    exact ⟨rfl, rfl⟩
  · intro h
    unfold mcu_version_get
    rw [if_neg (fun hn => hn h)]
    simp [oracleIssue, apply_ite StoreResult.sent, mcu_property_out_sent]
  · intro h
    unfold mcu_version_get
    rw [if_pos h]
    exact ⟨rfl, rfl⟩
  · constructor <;> decide

/-- C9 witness: a fresh driver state issues the GET, a populated one is
rejected with -ENOMEM without transport activity. -/
theorem mcu_identity_lazy_fetch_witness :
    (mcu_id_get oracleIssue TransportOutcome.timeout init_drvdata).sent
      = some (build_outbuf GET_MCU_ID 0 [] 0, 0) ∧
    (mcu_version_get oracleIssue TransportOutcome.timeout
      { init_drvdata with mcu_ver := [1, 2, 3, 4] }).ret = -12 := by
  constructor
  · exact (mcu_identity_lazy_fetch init_drvdata TransportOutcome.timeout).1 (by decide)
  · exact ((mcu_identity_lazy_fetch { init_drvdata with mcu_ver := [1, 2, 3, 4] }
      TransportOutcome.timeout).2.2.2.1 (by decide)).2

/-- C10: with the cached lighting-profile selector at its initial value 0,
rgb_profile_call derives wire index 2, which equals LIGHT_PROFILE_SEL (the
profile-selector register, not a user-profile record); rgb_cfg_call's
validation (1..5) accepts it, so the command is issued to the transport at
that index instead of being rejected. -/
theorem rgb_profile_call_zero_selector :
    ∀ (d : Drvdata) (out : TransportOutcome) (val : List Nat) (size : Nat),
      d.rgb_profile = 0 →
      (d.rgb_profile + 2 = LIGHT_PROFILE_SEL ∧
       (LIGHT_MODE_SEL ≤ d.rgb_profile + 2 ∧ d.rgb_profile + 2 ≤ USR_LIGHT_PROFILE_3) ∧
       (rgb_profile_call oracleIssue out d GET_LIGHT_CFG val size).sent
          = some (build_outbuf GET_LIGHT_CFG LIGHT_PROFILE_SEL val size, size) ∧
       (rgb_profile_call oracleIssue out d SET_LIGHT_CFG val size).sent
          = some (build_outbuf SET_LIGHT_CFG LIGHT_PROFILE_SEL val size, size)) := by
  intro d out val size h
  refine ⟨by simp [h, LIGHT_PROFILE_SEL], by simp [h, LIGHT_MODE_SEL, USR_LIGHT_PROFILE_3], ?_, ?_⟩
  · simp only [rgb_profile_call, rgb_cfg_call, h, GET_LIGHT_CFG, SET_LIGHT_CFG,
      LIGHT_MODE_SEL, LIGHT_PROFILE_SEL, USR_LIGHT_PROFILE_3, oracleIssue]
    norm_num
    simp [apply_ite StoreResult.sent, mcu_property_out_sent]
  · simp only [rgb_profile_call, rgb_cfg_call, h, GET_LIGHT_CFG, SET_LIGHT_CFG,
      LIGHT_MODE_SEL, LIGHT_PROFILE_SEL, USR_LIGHT_PROFILE_3, oracleIssue]
    norm_num
    simp [apply_ite StoreResult.sent, mcu_property_out_sent]

/-- The interval walk returns the interpolation of the first matching
interval, in stored array order. -/
lemma curve_loop_first_match (t : Nat) :
    ∀ (i : Nat) (ts ps : List Nat) (pwm : Int),
      i + 1 < ts.length → i + 1 < ps.length →
      ts.getD i 0 ≤ t → t < ts.getD (i + 1) 0 →
      (∀ j, j < i → ¬(ts.getD j 0 ≤ t ∧ t < ts.getD (j + 1) 0)) →
      curve_loop t ts ps pwm =
        curve_interp t (ts.getD i 0) (ps.getD i 0) (ts.getD (i + 1) 0) (ps.getD (i + 1) 0) := by
  intro i
  induction i with
  | zero =>
    intro ts ps pwm hts hps h1 h2 _
    match ts, ps with
    | [], _ => simp at hts
    | [t0], _ => simp at hts
    | t0 :: t1 :: ts2, [] => simp at hps
    | t0 :: t1 :: ts2, [p0] => simp at hps
    | t0 :: t1 :: ts2, p0 :: p1 :: ps2 =>
      simp only [List.getD_cons_zero, List.getD_cons_succ] at h1 h2 ⊢
      simp [curve_loop, h1, h2]
  | succ i ih =>
    intro ts ps pwm hts hps h1 h2 hfirst
    match ts, ps with
    | [], _ => simp at hts
    | [t0], _ => simp at hts
    | t0 :: t1 :: ts2, [] => simp at hps
    | t0 :: t1 :: ts2, [p0] => simp at hps
    | t0 :: t1 :: ts2, p0 :: p1 :: ps2 =>
      have h0 := hfirst 0 (Nat.succ_pos i)
      simp only [List.getD_cons_zero, List.getD_cons_succ] at h0 h1 h2 ⊢
      rw [curve_loop, if_neg h0]
      have hts' : i + 1 < (t1 :: ts2).length := by
        simp only [List.length_cons] at hts ⊢
        omega
      have hps' : i + 1 < (p1 :: ps2).length := by
        simp only [List.length_cons] at hps ⊢
        omega
      have hfirst' : ∀ j, j < i →
          ¬((t1 :: ts2).getD j 0 ≤ t ∧ t < (t1 :: ts2).getD (j + 1) 0) := by
        intro j hj
        have := hfirst (j + 1) (by omega)
        simpa [List.getD_cons_succ] using this
      exact ih (t1 :: ts2) (p1 :: ps2) pwm hts' hps' h1 h2 hfirst'

/-- When no interval matches, the walk keeps the initial pwm value. -/
lemma curve_loop_no_match (t : Nat) :
    ∀ (ts ps : List Nat) (pwm : Int),
      (∀ j, j + 1 < ts.length → ¬(ts.getD j 0 ≤ t ∧ t < ts.getD (j + 1) 0)) →
      curve_loop t ts ps pwm = pwm := by
  intro ts
  induction ts with
  | nil => intro ps pwm _; cases ps <;> rfl
  | cons t0 ts1 ih =>
    intro ps pwm h
    match ts1, ps with
    | [], _ =>
      cases ps <;> rfl
    | t1 :: ts2, [] => rfl
    | t1 :: ts2, [p0] => rfl
    | t1 :: ts2, p0 :: p1 :: ps2 =>
      have h0 := h 0 (by simp [List.length_cons])
      simp only [List.getD_cons_zero, List.getD_cons_succ] at h0
      rw [curve_loop, if_neg h0]
      apply ih (p1 :: ps2) pwm
      intro j hj
      have := h (j + 1) (by simpa [List.length_cons] using hj)
      simpa [List.getD_cons_succ] using this

/-- C3: the curve evaluator outputs pwm[8] when t ≥ temp[8]; otherwise the
first interval [temp i, temp (i+1)) containing t is linearly interpolated
with C integer arithmetic (a zero-width interval guard yields pwm[i]); a
temperature below every interval keeps pwm[0]; on the default table a
breakpoint yields its own pwm (t = 20 gives 30) and the claim's example
points (10,20) and (20,30) give pwm 25 at t = 15. -/
theorem fan_curve_eval_spec :
    (∀ (ct cp : List Nat) (t : Nat), ct.length = 9 → cp.length = 9 →
      ((ct.getD 8 0 ≤ t → fan_curve_eval ct cp t = (cp.getD 8 0 : Int)) ∧
       (∀ i : Nat, i < 8 → t < ct.getD 8 0 → ct.getD i 0 ≤ t → t < ct.getD (i + 1) 0 →
         (∀ j, j < i → ¬(ct.getD j 0 ≤ t ∧ t < ct.getD (j + 1) 0)) →
         fan_curve_eval ct cp t =
           (cp.getD i 0 : Int) +
             (((cp.getD (i + 1) 0 : Int) - (cp.getD i 0 : Int)) *
               ((t : Int) - (ct.getD i 0 : Int))).tdiv
               ((ct.getD (i + 1) 0 : Int) - (ct.getD i 0 : Int))) ∧
       (t < ct.getD 8 0 → (∀ j, j < 8 → ¬(ct.getD j 0 ≤ t ∧ t < ct.getD (j + 1) 0)) →
         fan_curve_eval ct cp t = (cp.getD 0 0 : Int)))) ∧
    (∀ (t t0 p0 p1 : Nat), curve_interp t t0 p0 t0 p1 = (p0 : Int)) ∧
    fan_curve_eval default_curve_temp default_curve_pwm 15 = 25 ∧
    fan_curve_eval default_curve_temp default_curve_pwm 20 = 30 := by
  refine ⟨?_, ?_, by decide, by decide⟩
  · intro ct cp t hct hcp
    refine ⟨?_, ?_, ?_⟩
    · intro h
      rw [fan_curve_eval, if_pos h]
    · intro i hi hlt h1 h2 hfirst
      rw [fan_curve_eval, if_neg (by omega)]
      rw [curve_loop_first_match t i ct cp ((cp.getD 0 0 : Nat) : Int)
        (by omega) (by omega) h1 h2 hfirst]
      rw [curve_interp, if_pos (by omega)]
    · intro hlt hnone
      rw [fan_curve_eval, if_neg (by omega)]
      exact curve_loop_no_match t ct cp _ (fun j hj => hnone j (by omega))
  · intro t t0 p0 p1
    simp [curve_interp]

/-- C3 witness: the default table at t = 35 interpolates segment 2 to 45. -/
theorem fan_curve_eval_spec_witness :
    fan_curve_eval default_curve_temp default_curve_pwm 35 = 45 := by
  have h := (fan_curve_eval_spec.1 default_curve_temp default_curve_pwm 35
    (by decide) (by decide)).2.1 2 (by decide) (by decide) (by decide) (by decide)
    (by decide)
  rw [h]
  decide

/-- Byte 2 of the built frame is the first payload byte: val[0] when the
payload size is positive, 0 when the payload is empty. -/
lemma build_outbuf_getD2 (c i : Nat) (val : List Nat) (s : Nat) :
    (build_outbuf c i val s).getD 2 0 = if 0 < s then val.getD 0 0 else 0 := by
  have h63 : List.range 63 = 0 :: List.range' 1 62 := by decide
  simp [build_outbuf, h63, List.getD_cons_succ, List.getD_cons_zero]

/-- Against the echoing transport a gamepad store that parses to wire
value v succeeds (SET status 0), returns the caller's count, and leaves
the device holding v. -/
lemma gp_store_echo (d : Drvdata) (dev idx : Nat) (buf : String) (v count : Nat)
    (hp : gamepad_parse idx buf = Except.ok v) :
    (gamepad_property_store echoIssue dev d idx buf count).ret = (count : Int) ∧
    (gamepad_property_store echoIssue dev d idx buf count).env = v ∧
    (gamepad_property_store echoIssue dev d idx buf count).d.last_cmd_ret = 0 := by
  refine ⟨?_, ?_, ?_⟩ <;> by_cases hv : v = 0 <;>
    simp [gamepad_property_store, hp, echoIssue, echo_device, mcu_property_out,
      legos_cfg_raw_event, GO_S_PACKET_SIZE, GET_VERSION, GET_MCU_ID, GET_GAMEPAD_CFG,
      GET_TP_PARAM, GET_PL_TEST, GET_LIGHT_CFG, GET_GYRO_CFG, GET_KEY_MAP,
      GET_MOTOR_CFG, GET_STICK_CFG, GET_TRIGGER_CFG, SET_GAMEPAD_CFG, SET_TP_PARAM,
      build_outbuf_getD2, build_outbuf, hv]

/-- Against the echoing transport holding wire value w, a gamepad show
renders exactly the domain image of w. -/
lemma gp_show_echo (d : Drvdata) (w idx : Nat) :
    (gamepad_property_show echoIssue w d idx).out = gamepad_render idx w := by
  cases hr : gamepad_render idx w <;>
    simp [gamepad_property_show, echoIssue, echo_device, mcu_property_out,
      legos_cfg_raw_event, GO_S_PACKET_SIZE, GET_VERSION, GET_MCU_ID, GET_GAMEPAD_CFG,
      GET_TP_PARAM, GET_PL_TEST, GET_LIGHT_CFG, GET_GYRO_CFG, GET_KEY_MAP,
      GET_MOTOR_CFG, GET_STICK_CFG, GET_TRIGGER_CFG, SET_GAMEPAD_CFG, SET_TP_PARAM,
      build_outbuf, u64_of_int, hr]

/-- Touchpad analogue of gp_store_echo. -/
lemma tp_store_echo (d : Drvdata) (dev idx : Nat) (buf : String) (v count : Nat)
    (hp : touchpad_parse idx buf = Except.ok v) :
    (touchpad_property_store echoIssue dev d idx buf count).ret = (count : Int) ∧
    (touchpad_property_store echoIssue dev d idx buf count).env = v ∧
    (touchpad_property_store echoIssue dev d idx buf count).d.last_cmd_ret = 0 := by
  refine ⟨?_, ?_, ?_⟩ <;> by_cases hv : v = 0 <;>
    simp [touchpad_property_store, hp, echoIssue, echo_device, mcu_property_out,
      legos_cfg_raw_event, GO_S_PACKET_SIZE, GET_VERSION, GET_MCU_ID, GET_GAMEPAD_CFG,
      GET_TP_PARAM, GET_PL_TEST, GET_LIGHT_CFG, GET_GYRO_CFG, GET_KEY_MAP,
      GET_MOTOR_CFG, GET_STICK_CFG, GET_TRIGGER_CFG, SET_GAMEPAD_CFG, SET_TP_PARAM,
      SET_GYRO_CFG, SET_KEY_MAP, SET_LIGHT_CFG, SET_MOTOR_CFG, SET_STICK_CFG,
      SET_TRIGGER_CFG, build_outbuf_getD2, build_outbuf, hv]

/-- Touchpad analogue of gp_show_echo. -/
lemma tp_show_echo (d : Drvdata) (w idx : Nat) :
    (touchpad_property_show echoIssue w d idx).out = touchpad_render idx w := by
  cases hr : touchpad_render idx w <;>
    simp [touchpad_property_show, echoIssue, echo_device, mcu_property_out,
      legos_cfg_raw_event, GO_S_PACKET_SIZE, GET_VERSION, GET_MCU_ID, GET_GAMEPAD_CFG,
      GET_TP_PARAM, GET_PL_TEST, GET_LIGHT_CFG, GET_GYRO_CFG, GET_KEY_MAP,
      GET_MOTOR_CFG, GET_STICK_CFG, GET_TRIGGER_CFG, SET_GAMEPAD_CFG, SET_TP_PARAM,
      build_outbuf, u64_of_int, hr]

/-- One gamepad round trip: if the label parses to wire value v and v
renders back to the label, set-then-get returns the count and the label. -/
lemma gp_roundtrip_aux (d : Drvdata) (dev count idx : Nat) (label : String) (v : Nat)
    (hp : gamepad_parse idx label = Except.ok v)
    (hr : gamepad_render idx v = some (label ++ "\n")) :
    gp_set_then_get dev d idx label count = ((count : Int), some (label ++ "\n")) := by
  obtain ⟨h1, h2, _⟩ := gp_store_echo d dev idx label v count hp
  simp only [gp_set_then_get, h1, gp_show_echo, h2, hr]

/-- One touchpad round trip. -/
lemma tp_roundtrip_aux (d : Drvdata) (dev count idx : Nat) (label : String) (v : Nat)
    (hp : touchpad_parse idx label = Except.ok v)
    (hr : touchpad_render idx v = some (label ++ "\n")) :
    tp_set_then_get dev d idx label count = ((count : Int), some (label ++ "\n")) := by
  obtain ⟨h1, h2, _⟩ := tp_store_echo d dev idx label v count hp
  simp only [tp_set_then_get, h1, tp_show_echo, h2, hr]

/-- C8: for every enumeration property and every valid label of its
domain, against a transport whose GET response echoes the wire value most
recently sent by the SET, set(label) followed by get() renders the same
label back. -/
theorem enum_roundtrip :
    ∀ (d : Drvdata) (dev count : Nat),
      (∀ label ∈ GAMEPAD_MODE_TEXT,
        gp_set_then_get dev d CFG_GAMEPAD_MODE label count
          = ((count : Int), some (label ++ "\n"))) ∧
      (∀ label ∈ FEATURE_ENABLE_STATUS_TEXT,
        gp_set_then_get dev d CFG_PASS_ENABLE label count
          = ((count : Int), some (label ++ "\n"))) ∧
      (∀ label ∈ FEATURE_ENABLE_STATUS_TEXT,
        gp_set_then_get dev d CFG_LIGHT_ENABLE label count
          = ((count : Int), some (label ++ "\n"))) ∧
      (∀ label ∈ FEATURE_ENABLE_STATUS_TEXT,
        gp_set_then_get dev d CFG_TPAD_ENABLE label count
          = ((count : Int), some (label ++ "\n"))) ∧
      (∀ label ∈ IMU_ENABLED_TEXT,
        gp_set_then_get dev d CFG_IMU_ENABLE label count
          = ((count : Int), some (label ++ "\n"))) ∧
      (∀ label ∈ OS_TYPE_TEXT,
        gp_set_then_get dev d CFG_OS_TYPE label count
          = ((count : Int), some (label ++ "\n"))) ∧
      (∀ label ∈ POLL_RATE_TEXT,
        gp_set_then_get dev d CFG_POLL_RATE label count
          = ((count : Int), some (label ++ "\n"))) ∧
      (∀ label ∈ DPAD_MODE_TEXT,
        gp_set_then_get dev d CFG_DPAD_MODE label count
          = ((count : Int), some (label ++ "\n"))) ∧
      (∀ label ∈ TOUCHPAD_MODE_TEXT,
        tp_set_then_get dev d CFG_WINDOWS_MODE label count
          = ((count : Int), some (label ++ "\n"))) ∧
      (∀ label ∈ TOUCHPAD_MODE_TEXT,
        tp_set_then_get dev d CFG_LINUX_MODE label count
          = ((count : Int), some (label ++ "\n"))) := by
  intro d dev count
  refine ⟨?_, ?_, ?_, ?_, ?_, ?_, ?_, ?_, ?_, ?_⟩ <;> intro label hl <;> fin_cases hl
  · exact gp_roundtrip_aux d dev count CFG_GAMEPAD_MODE _ 0 (by rfl) (by rfl)
  · exact gp_roundtrip_aux d dev count CFG_GAMEPAD_MODE _ 1 (by rfl) (by rfl)
  · exact gp_roundtrip_aux d dev count CFG_PASS_ENABLE _ 0 (by rfl) (by rfl)
  · exact gp_roundtrip_aux d dev count CFG_PASS_ENABLE _ 1 (by rfl) (by rfl)
  · exact gp_roundtrip_aux d dev count CFG_LIGHT_ENABLE _ 0 (by rfl) (by rfl)
  · exact gp_roundtrip_aux d dev count CFG_LIGHT_ENABLE _ 1 (by rfl) (by rfl)
  · exact gp_roundtrip_aux d dev count CFG_TPAD_ENABLE _ 0 (by rfl) (by rfl)
  · exact gp_roundtrip_aux d dev count CFG_TPAD_ENABLE _ 1 (by rfl) (by rfl)
  · exact gp_roundtrip_aux d dev count CFG_IMU_ENABLE _ 0 (by rfl) (by rfl)
  · exact gp_roundtrip_aux d dev count CFG_IMU_ENABLE _ 1 (by rfl) (by rfl)
  · exact gp_roundtrip_aux d dev count CFG_IMU_ENABLE _ 2 (by rfl) (by rfl)
  · exact gp_roundtrip_aux d dev count CFG_OS_TYPE _ 0 (by rfl) (by rfl)
  · exact gp_roundtrip_aux d dev count CFG_OS_TYPE _ 1 (by rfl) (by rfl)
  · exact gp_roundtrip_aux d dev count CFG_POLL_RATE _ 0 (by rfl) (by rfl)
  · exact gp_roundtrip_aux d dev count CFG_POLL_RATE _ 1 (by rfl) (by rfl)
  · exact gp_roundtrip_aux d dev count CFG_POLL_RATE _ 2 (by rfl) (by rfl)
  · exact gp_roundtrip_aux d dev count CFG_POLL_RATE _ 3 (by rfl) (by rfl)
  · exact gp_roundtrip_aux d dev count CFG_DPAD_MODE _ 0 (by rfl) (by rfl)
  · exact gp_roundtrip_aux d dev count CFG_DPAD_MODE _ 1 (by rfl) (by rfl)
  · exact tp_roundtrip_aux d dev count CFG_WINDOWS_MODE _ 0 (by rfl) (by rfl)
  · exact tp_roundtrip_aux d dev count CFG_WINDOWS_MODE _ 1 (by rfl) (by rfl)
  · exact tp_roundtrip_aux d dev count CFG_LINUX_MODE _ 0 (by rfl) (by rfl)
  · exact tp_roundtrip_aux d dev count CFG_LINUX_MODE _ 1 (by rfl) (by rfl)

/-- C8 witness: setting gamepad mode "dinput" then reading it back yields
"dinput". -/
theorem enum_roundtrip_witness :
    gp_set_then_get 0 init_drvdata CFG_GAMEPAD_MODE ("dinput") 6
      = ((6 : Int), some ("dinput" ++ "\n")) :=
  (enum_roundtrip init_drvdata 0 6).1 ("dinput") (by decide)

/-- C10 witness: on the fresh driver state the profile read goes out at
index 2 = LIGHT_PROFILE_SEL. -/
theorem rgb_profile_call_zero_selector_witness :
    (rgb_profile_call oracleIssue TransportOutcome.timeout init_drvdata
      GET_LIGHT_CFG [] 0).sent
      = some (build_outbuf GET_LIGHT_CFG LIGHT_PROFILE_SEL [] 0, 0) :=
  (rgb_profile_call_zero_selector init_drvdata TransportOutcome.timeout [] 0
    (by decide)).2.2.1
